import Mathlib

/-!
Shallow embedding of the Insight-Bridge ingestion core:

* `waitForRateLimit`, `resetCounters` embed the rate limiter of
  `src/services/ai.service.ts` (`AIService.waitForRateLimit`,
  `AIService.resetCounters`).  Time (`Date.now()`) is modelled by an
  explicit millisecond clock carried in the state; `sleep(ms)` advances
  the clock by exactly `ms` and is recorded in a sleep trace.
* `retryAux` / `retryWithBackoff` embed `AIService.retryWithBackoff`.
  The upstream operation is an oracle `fn : Nat → AttemptOutcome α`
  giving the outcome of each zero-based attempt.  JavaScript `Error`
  objects are modelled by `JsError` (optional `status`, `message`, and
  the server-suggested retry delay extracted from `errorDetails`).
* `generateSummary`, `generateEmbedding`, `generateSummaryAndEmbedding`
  embed the enrichment entry points of `AIService`, text being modelled
  as `List Char` (JavaScript strings; `substring`, `length`, `trim` and
  `includes` become list operations).
* `loopV1` / `loopV2` and the four batch entry points embed the two
  concatenated variants of `src/services/ingestion.service.ts`
  (`IngestionService.ingestNews` / `searchAndIngest`): the first variant
  clamps `max` to 3 and its per-candidate catch never breaks; the second
  variant does not clamp and breaks out of the loop when the error
  message contains `"quota exceeded"`.  The article store
  (`ArticlesRepository`, a SQL table keyed by `url`) is modelled as a
  list of created records, `existsByUrl` as a scan keyed by `url`.
-/

namespace InsightBridge

/-! ## Rate limiter (`AIService.waitForRateLimit`) -/

/-- Cap on requests per rolling minute window (`MAX_REQUESTS_PER_MINUTE`). -/
def MAX_REQUESTS_PER_MINUTE : Nat := 10

/-- Minimum spacing between requests in ms (`MIN_REQUEST_INTERVAL`). -/
def MIN_REQUEST_INTERVAL : Int := 6000

/-- Message of the error thrown when the daily budget is spent. -/
def quotaExhaustedMsg : String :=
  "Daily API quota exhausted. Please try again in 24 hours."

/-- Rate-budget instance fields of `AIService`. -/
structure RateBudget where
  requestCount : Nat
  requestResetTime : Int
  dailyRequestCount : Nat
  dailyResetTime : Int
  lastRequestTime : Int
deriving DecidableEq, Repr

/-- Budget fields together with the current wall clock (`Date.now()` in ms). -/
structure RLState where
  budget : RateBudget
  clock : Int
deriving DecidableEq, Repr

/-- Outcome of one `waitForRateLimit` call: either a reserved slot with the
updated state and the list of sleeps performed, or the thrown error message
with the state as mutated before the throw and the sleeps performed before
the throw. -/
inductive RLResult where
  | ok (s : RLState) (sleeps : List Int)
  | err (msg : String) (s : RLState) (sleeps : List Int)
deriving DecidableEq, Repr

/-- Embedding of `AIService.waitForRateLimit`.  Mirrors the source order:
minute-window reset, day-window reset, day-cap check (throws before any
sleep), minute-cap wait, minimum-interval wait, then counter increments. -/
def waitForRateLimit (s : RLState) : RLResult :=
  let now := s.clock
  let b0 := s.budget
  let b1 := if b0.requestResetTime < now then
      { b0 with requestCount := 0, requestResetTime := now + 60000 } else b0
  let b2 := if b1.dailyResetTime < now then
      { b1 with dailyRequestCount := 0, dailyResetTime := now + 86400000 } else b1
  if 1000 ≤ b2.dailyRequestCount then
    RLResult.err quotaExhaustedMsg { budget := b2, clock := now } []
  else
    let step3 : RateBudget × Int × List Int :=
      if MAX_REQUESTS_PER_MINUTE ≤ b2.requestCount then
        let waitTime := b2.requestResetTime - now
        let clock1 := now + waitTime
        ({ b2 with requestCount := 0, requestResetTime := clock1 + 60000 }, clock1, [waitTime])
      else (b2, now, [])
    let b3 := step3.1
    let clock1 := step3.2.1
    let sleeps1 := step3.2.2
    let timeSince := now - b3.lastRequestTime
    let step4 : Int × List Int :=
      if timeSince < MIN_REQUEST_INTERVAL then
        (clock1 + (MIN_REQUEST_INTERVAL - timeSince), sleeps1 ++ [MIN_REQUEST_INTERVAL - timeSince])
      else (clock1, sleeps1)
    let clock2 := step4.1
    let b4 := { b3 with
      requestCount := b3.requestCount + 1,
      dailyRequestCount := b3.dailyRequestCount + 1,
      lastRequestTime := clock2 }
    RLResult.ok { budget := b4, clock := clock2 } step4.2

/-- Embedding of `AIService.resetCounters`: zero the minute counter and move
the minute window end to now + 60s; nothing else is touched. -/
def resetCounters (s : RLState) : RLState :=
  { s with budget := { s.budget with requestCount := 0, requestResetTime := s.clock + 60000 } }

/-! ## Retry executor (`AIService.retryWithBackoff`) -/

/-- Model of a JavaScript `Error` as observed by the retry executor and its
callers: optional HTTP `status`, the `message`, and the server-suggested
retry delay in ms when present in `errorDetails` (`RetryInfo.retryDelay`,
already converted from seconds to ms). -/
structure JsError where
  status : Option Nat
  message : String
  retryDelayMs : Option Int
deriving DecidableEq, Repr

deriving instance DecidableEq for Except

/-- Outcome of one invocation of the wrapped upstream operation. -/
inductive AttemptOutcome (α : Type) where
  | ok (v : α)
  | fail (e : JsError)

/-- Result of a `retryWithBackoff` run: the returned value or thrown error,
the rate-limiter state afterwards, the sleeps performed (rate-limiter waits
and backoff sleeps, in order), and how many times the wrapped operation was
invoked. -/
structure RetryResult (α : Type) where
  result : Except JsError α
  state : RLState
  sleeps : List Int
  fnCalls : Nat

/-- Message of the error thrown on a 404 (`AI model not available: ...`). -/
def notFoundMsg (m : String) : String := "AI model not available: " ++ m

/-- Message thrown when a 429 survives all attempts. -/
def rateLimitExceededMsg (n : Nat) : String :=
  "Rate limit exceeded after " ++ toString n ++ " attempts. Please reduce batch size or wait."

/-- Fallback message `"<op> failed after <n> attempts"` (reachable only when
`maxRetries = 0`). -/
def opFailedMsg (operation : String) (n : Nat) : String :=
  operation ++ " failed after " ++ toString n ++ " attempts"

/-- Embedding of the `for (attempt = 0; attempt < maxRetries; attempt++)` loop
of `AIService.retryWithBackoff`.  The `remaining` argument is the number of
loop iterations left (`maxRetries - attempt` at entry).  Each iteration calls
`waitForRateLimit` and then the operation; any error — including the one
thrown by `waitForRateLimit` itself — lands in the same `catch`, which
classifies by `status`: 404 throws `notFoundMsg` at once; 429 sleeps
`max(serverSuggested, initialDelay * 2 ^ attempt)` and retries, or throws
`rateLimitExceededMsg` on the last attempt; anything else sleeps
`initialDelay * 2 ^ attempt` and retries, or rethrows the original error. -/
def retryAux {α : Type} (fn : Nat → AttemptOutcome α) (operation : String)
    (maxRetries : Nat) (initialDelay : Int) :
    Nat → Nat → Option JsError → RLState → RetryResult α
  | _, 0, lastError, s =>
      ⟨Except.error (lastError.getD ⟨none, opFailedMsg operation maxRetries, none⟩), s, [], 0⟩
  | attempt, remaining + 1, _, s =>
      match waitForRateLimit s with
      | RLResult.err msg s' sl =>
          let e : JsError := ⟨none, msg, none⟩
          if attempt < maxRetries - 1 then
            let d := initialDelay * 2 ^ attempt
            let rest := retryAux fn operation maxRetries initialDelay (attempt + 1) remaining
              (some e) { s' with clock := s'.clock + d }
            { rest with sleeps := sl ++ d :: rest.sleeps }
          else ⟨Except.error e, s', sl, 0⟩
      | RLResult.ok s' sl =>
          match fn attempt with
          | AttemptOutcome.ok v => ⟨Except.ok v, s', sl, 1⟩
          | AttemptOutcome.fail e =>
              if e.status = some 404 then
                ⟨Except.error ⟨none, notFoundMsg e.message, none⟩, s', sl, 1⟩
              else if e.status = some 429 then
                let base := initialDelay * 2 ^ attempt
                let d := match e.retryDelayMs with
                  | some sd => max sd base
                  | none => base
                if attempt < maxRetries - 1 then
                  let rest := retryAux fn operation maxRetries initialDelay (attempt + 1)
                    remaining (some e) { s' with clock := s'.clock + d }
                  ⟨rest.result, rest.state, sl ++ d :: rest.sleeps, rest.fnCalls + 1⟩
                else ⟨Except.error ⟨none, rateLimitExceededMsg maxRetries, none⟩, s', sl, 1⟩
              else
                if attempt < maxRetries - 1 then
                  let d := initialDelay * 2 ^ attempt
                  let rest := retryAux fn operation maxRetries initialDelay (attempt + 1)
                    remaining (some e) { s' with clock := s'.clock + d }
                  ⟨rest.result, rest.state, sl ++ d :: rest.sleeps, rest.fnCalls + 1⟩
                else ⟨Except.error e, s', sl, 1⟩

/-- Embedding of `AIService.retryWithBackoff` (entry point: attempt 0,
`maxRetries` iterations remaining, no error recorded yet). -/
def retryWithBackoff {α : Type} (fn : Nat → AttemptOutcome α) (operation : String)
    (maxRetries : Nat) (initialDelay : Int) (s : RLState) : RetryResult α :=
  retryAux fn operation maxRetries initialDelay 0 maxRetries none s

/-! ## String helpers (JavaScript `trim` and `includes` on `List Char`) -/

/-- Whitespace test used by `trim`. -/
def isWsChar (c : Char) : Bool := c = ' ' || c = '\n' || c = '\t' || c = '\r'

/-- JavaScript `String.prototype.trim` on a character list. -/
def trimChars (t : List Char) : List Char :=
  ((t.dropWhile isWsChar).reverse.dropWhile isWsChar).reverse

/-- JavaScript `hay.includes(needle)` on character lists. -/
def containsSub (needle : List Char) : List Char → Bool
  | [] => needle.isEmpty
  | c :: rest => needle.isPrefixOf (c :: rest) || containsSub needle rest

/-- JavaScript `hay.includes(needle)` on strings. -/
def strIncludes (hay needle : String) : Bool := containsSub needle.data hay.data

/-! ## Enrichment (`AIService.generateSummary` / `generateEmbedding` /
`generateSummaryAndEmbedding`) -/

/-- Maximum summary-input length in characters (`maxLength` in
`generateSummary`). -/
def summaryMaxLength : Nat := 3000

/-- Truncation performed by `generateSummary`: inputs longer than 3000
characters become their first 3000 characters followed by `"..."`. -/
def truncatedSummaryInput (text : List Char) : List Char :=
  if summaryMaxLength < text.length then text.take summaryMaxLength ++ "...".data else text

/-- Maximum embedding-input length in characters (`maxLength` in
`generateEmbedding`). -/
def embeddingMaxLength : Nat := 2000

/-- Truncation performed by `generateEmbedding`: inputs longer than 2000
characters become their first 2000 characters. -/
def truncatedEmbeddingInput (text : List Char) : List Char :=
  if embeddingMaxLength < text.length then text.take embeddingMaxLength else text

/-- Fixed text placed before the article text in the summarization prompt. -/
def summaryPromptPre : List Char :=
  "Summarize this news article in 2-3 concise sentences:\n\n".data

/-- Fixed text placed after the article text in the summarization prompt. -/
def summaryPromptPost : List Char := "\n\nSummary:".data

/-- The prompt actually submitted to the upstream summarization call. -/
def summaryPrompt (t : List Char) : List Char :=
  summaryPromptPre ++ t ++ summaryPromptPost

/-- Message thrown by the outer catch of `generateSummary` /
`generateEmbedding` when the caught error has status 429 or a message
containing `"quota"`. -/
def quotaWrapMsg : String := "API quota exceeded. Please reduce batch size or wait."

/-- The quota test of the outer catches:
`error.status === 429 || error.message?.includes('quota')`. -/
def isQuotaLike (e : JsError) : Bool :=
  e.status == some 429 || strIncludes e.message "quota"

/-- Message thrown on an embedding of the wrong length. -/
def invalidDimsMsg (n : Nat) : String := "Invalid embedding dimensions: " ++ toString n

/-- Embedding of `AIService.generateSummary`.  `upstream` is the oracle for
the summarization model: given the submitted prompt and the zero-based
attempt number it yields that attempt's outcome.  Returns the result or the
wrapped error, the rate-limiter state, and the sleeps performed. -/
def generateSummary (upstream : List Char → Nat → AttemptOutcome (List Char))
    (text : List Char) (s : RLState) : Except JsError (List Char) × RLState × List Int :=
  let truncated := truncatedSummaryInput text
  let r := retryWithBackoff
      (fun attempt =>
        match upstream (summaryPrompt truncated) attempt with
        | AttemptOutcome.ok t => AttemptOutcome.ok (trimChars t)
        | AttemptOutcome.fail e => AttemptOutcome.fail e)
      "Summary generation" 3 3000 s
  match r.result with
  | Except.ok summary => (Except.ok summary, r.state, r.sleeps)
  | Except.error e =>
      if isQuotaLike e then (Except.error ⟨none, quotaWrapMsg, none⟩, r.state, r.sleeps)
      else (Except.error ⟨none, "Summary generation failed: " ++ e.message, none⟩, r.state, r.sleeps)

/-- Embedding of `AIService.generateEmbedding`.  After a successful retry run
the result length is validated against 768; a mismatch throws
`invalidDimsMsg`, which the outer catch rewraps like any other error. -/
def generateEmbedding (upstream : List Char → Nat → AttemptOutcome (List Int))
    (text : List Char) (s : RLState) : Except JsError (List Int) × RLState × List Int :=
  let truncated := truncatedEmbeddingInput text
  let r := retryWithBackoff (fun attempt => upstream truncated attempt)
      "Embedding generation" 3 3000 s
  match r.result with
  | Except.ok emb =>
      if emb.length ≠ 768 then
        let e : JsError := ⟨none, invalidDimsMsg emb.length, none⟩
        if isQuotaLike e then (Except.error ⟨none, quotaWrapMsg, none⟩, r.state, r.sleeps)
        else (Except.error ⟨none, "Embedding generation failed: " ++ e.message, none⟩,
          r.state, r.sleeps)
      else (Except.ok emb, r.state, r.sleeps)
  | Except.error e =>
      if isQuotaLike e then (Except.error ⟨none, quotaWrapMsg, none⟩, r.state, r.sleeps)
      else (Except.error ⟨none, "Embedding generation failed: " ++ e.message, none⟩,
        r.state, r.sleeps)

/-- Embedding of `AIService.generateSummaryAndEmbedding`: summary first, then
a fixed 2000 ms sleep, then the embedding; the first failure aborts the
whole enrichment. -/
def generateSummaryAndEmbedding (sumUp : List Char → Nat → AttemptOutcome (List Char))
    (embUp : List Char → Nat → AttemptOutcome (List Int)) (text : List Char) (s : RLState) :
    Except JsError (List Char × List Int) × RLState × List Int :=
  match generateSummary sumUp text s with
  | (Except.error e, s1, sl1) => (Except.error e, s1, sl1)
  | (Except.ok summary, s1, sl1) =>
      let s2 := { s1 with clock := s1.clock + 2000 }
      match generateEmbedding embUp text s2 with
      | (Except.error e, s3, sl2) => (Except.error e, s3, sl1 ++ 2000 :: sl2)
      | (Except.ok emb, s3, sl2) => (Except.ok (summary, emb), s3, sl1 ++ 2000 :: sl2)

/-! ## Ingestion pipeline (`src/services/ingestion.service.ts`, both variants) -/

/-- Article as produced by the News collaborator (`NewsService`). -/
structure Article where
  title : List Char
  description : List Char
  content : List Char
  url : String
  publishedAt : Int
  sourceName : String
  image : Option String
deriving DecidableEq, Repr

/-- Row persisted by `ArticlesRepository.create`. -/
structure CreatedRecord where
  title : List Char
  summary : List Char
  url : String
  publishedAt : Int
  embedding : List Int
  source : String
  category : Option String
  image : Option String
deriving DecidableEq, Repr

/-- Embedding of `ArticlesRepository.existsByUrl`: the SQL
`SELECT EXISTS(SELECT 1 FROM news_articles WHERE url = $1)` over the store
modelled as the list of created records. -/
def existsByUrl (store : List CreatedRecord) (url : String) : Bool :=
  store.any (fun r => r.url == url)

/-- JavaScript `article.image || null` (first variant: an empty-string image
also becomes null). -/
def imageOrNull (i : Option String) : Option String :=
  match i with
  | some str => if str = "" then none else some str
  | none => none

/-- The enrichment input: title, description and content joined with blank
lines (`` `${title}\n\n${description}\n\n${content}` ``). -/
def contentForAI (a : Article) : List Char :=
  a.title ++ "\n\n".data ++ a.description ++ "\n\n".data ++ a.content

/-- Upstream oracles for a batch: for each candidate index, the summarization
and embedding oracles used by that candidate's enrichment. -/
structure PipeEnv where
  sumUp : Nat → List Char → Nat → AttemptOutcome (List Char)
  embUp : Nat → List Char → Nat → AttemptOutcome (List Int)

/-- Mutable state of one batch loop: the four accumulators of the source
(`success`, `failed`, `skipped`, `errors`), the article store and the shared
rate-limiter state. -/
structure LoopState where
  success : Nat
  failed : Nat
  skipped : Nat
  errors : List String
  store : List CreatedRecord
  rl : RLState
deriving DecidableEq, Repr

/-- Row passed to `ArticlesRepository.create` by the first variant
(`image: article.image || null`). -/
def mkRecordV1 (a : Article) (category : Option String)
    (summary : List Char) (emb : List Int) : CreatedRecord :=
  { title := a.title, summary := summary, url := a.url,
    publishedAt := a.publishedAt, embedding := emb, source := a.sourceName,
    category := category, image := imageOrNull a.image }

/-- Per-candidate loop of the first `IngestionService` variant (the one that
clamps `max` to 3): skip on duplicate URL, enrich, persist on success; on any
enrichment failure push `error.message` and continue — this variant never
breaks out of the loop. -/
def loopV1 (env : PipeEnv) (category : Option String) :
    Nat → List Article → LoopState → LoopState
  | _, [], st => st
  | i, a :: rest, st =>
      if existsByUrl st.store a.url then
        loopV1 env category (i + 1) rest { st with skipped := st.skipped + 1 }
      else
        match generateSummaryAndEmbedding (env.sumUp i) (env.embUp i) (contentForAI a) st.rl with
        | (Except.error e, rl', _) =>
            loopV1 env category (i + 1) rest
              { st with failed := st.failed + 1, errors := st.errors ++ [e.message], rl := rl' }
        | (Except.ok (summary, emb), rl', _) =>
            loopV1 env category (i + 1) rest
              { st with success := st.success + 1,
                        store := st.store ++ [mkRecordV1 a category summary emb], rl := rl' }

/-- The early-stop error entry pushed by the second variant:
`` `Quota exceeded after ${success} articles` ``. -/
def quotaEntryMsg (n : Nat) : String :=
  "Quota exceeded after " ++ toString n ++ " articles"

/-- Row passed to `ArticlesRepository.create` by the second variant
(`image: article.image ?? undefined`). -/
def mkRecordV2 (a : Article) (category : Option String)
    (summary : List Char) (emb : List Int) : CreatedRecord :=
  { title := a.title, summary := summary, url := a.url,
    publishedAt := a.publishedAt, embedding := emb, source := a.sourceName,
    category := category, image := a.image }

/-- Per-candidate loop of the second `IngestionService` variant (no clamp):
like `loopV1`, but a failure whose message contains `"quota exceeded"`
increments `failed`, pushes `quotaEntryMsg` and breaks out of the loop;
other failures push `` `${url}: ${message}` `` and continue. -/
def loopV2 (env : PipeEnv) (category : Option String) :
    Nat → List Article → LoopState → LoopState
  | _, [], st => st
  | i, a :: rest, st =>
      if existsByUrl st.store a.url then
        loopV2 env category (i + 1) rest { st with skipped := st.skipped + 1 }
      else
        match generateSummaryAndEmbedding (env.sumUp i) (env.embUp i) (contentForAI a) st.rl with
        | (Except.error e, rl', _) =>
            if strIncludes e.message "quota exceeded" then
              { st with failed := st.failed + 1, rl := rl',
                        errors := st.errors ++ [quotaEntryMsg st.success] }
            else
              loopV2 env category (i + 1) rest
                { st with failed := st.failed + 1, rl := rl',
                          errors := st.errors ++ [a.url ++ ": " ++ e.message] }
        | (Except.ok (summary, emb), rl', _) =>
            loopV2 env category (i + 1) rest
              { st with success := st.success + 1,
                        store := st.store ++ [mkRecordV2 a category summary emb], rl := rl' }

/-- The `IngestionResult` interface of the source. -/
structure IngestionResult where
  success : Nat
  failed : Nat
  skipped : Nat
  total : Nat
  errors : List String
deriving DecidableEq, Repr

/-- Loop state at batch entry: zeroed counters over the given store and
rate-limiter state. -/
def initLoopState (store : List CreatedRecord) (rl : RLState) : LoopState :=
  ⟨0, 0, 0, [], store, rl⟩

/-- Package the loop state into the returned `IngestionResult` with
`total = articles.length`, keeping the final loop state observable. -/
def finishBatch (n : Nat) (st : LoopState) : IngestionResult × LoopState :=
  ({ success := st.success, failed := st.failed, skipped := st.skipped,
     total := n, errors := st.errors }, st)

/-- First-variant `IngestionService.ingestNews`: clamps `max` to 3, fetches,
then runs `loopV1` with the request category attached to created rows. -/
def ingestNews_v1 (env : PipeEnv) (fetchNews : String → Nat → List Article)
    (category : String) (max : Nat) (store : List CreatedRecord) (rl : RLState) :
    IngestionResult × LoopState :=
  let m := if 3 < max then 3 else max
  let articles := fetchNews category m
  finishBatch articles.length (loopV1 env (some category) 0 articles (initLoopState store rl))

/-- First-variant `IngestionService.searchAndIngest`: clamps `max` to 3,
searches, then runs `loopV1`; created rows carry no category. -/
def searchAndIngest_v1 (env : PipeEnv) (searchNews : String → Nat → List Article)
    (query : String) (max : Nat) (store : List CreatedRecord) (rl : RLState) :
    IngestionResult × LoopState :=
  let m := if 3 < max then 3 else max
  let articles := searchNews query m
  finishBatch articles.length (loopV1 env none 0 articles (initLoopState store rl))

/-- Second-variant `IngestionService.ingestNews`: no clamp (only a log
warning above 5), fetches with the caller's `max`, then runs `loopV2`. -/
def ingestNews_v2 (env : PipeEnv) (fetchNews : String → Nat → List Article)
    (category : String) (max : Nat) (store : List CreatedRecord) (rl : RLState) :
    IngestionResult × LoopState :=
  let articles := fetchNews category max
  finishBatch articles.length (loopV2 env (some category) 0 articles (initLoopState store rl))

/-- Second-variant `IngestionService.searchAndIngest`: no clamp, searches
with the caller's `max`, then runs `loopV2`. -/
def searchAndIngest_v2 (env : PipeEnv) (searchNews : String → Nat → List Article)
    (query : String) (max : Nat) (store : List CreatedRecord) (rl : RLState) :
    IngestionResult × LoopState :=
  let articles := searchNews query max
  finishBatch articles.length (loopV2 env none 0 articles (initLoopState store rl))

/-! ## Helper lemmas -/

/-- Day-exhausted `waitForRateLimit` call: with the day counter at or above
1000 and the day window not yet elapsed, the call throws `quotaExhaustedMsg`
at once, with no sleeps, leaving the clock in place; only the minute-window
reset may have fired before the throw. -/
theorem waitForRateLimit_day_err (s : RLState)
    (hcnt : 1000 ≤ s.budget.dailyRequestCount) (hcl : s.clock ≤ s.budget.dailyResetTime) :
    waitForRateLimit s = RLResult.err quotaExhaustedMsg
      ⟨if s.budget.requestResetTime < s.clock then
          { s.budget with requestCount := 0, requestResetTime := s.clock + 60000 }
        else s.budget, s.clock⟩ [] := by
  have hday : ¬ s.budget.dailyResetTime < s.clock := not_lt.mpr hcl
  by_cases hm : s.budget.requestResetTime < s.clock <;>
    simp [waitForRateLimit, hm, hday, hcnt]

/-- Fields of the state returned with a day-exhausted throw: the day counter,
day window end and clock are untouched. -/
theorem waitForRateLimit_err_inv (s : RLState)
    (hcnt : 1000 ≤ s.budget.dailyRequestCount) (hcl : s.clock ≤ s.budget.dailyResetTime) :
    ∃ b', waitForRateLimit s = RLResult.err quotaExhaustedMsg ⟨b', s.clock⟩ [] ∧
      b'.dailyRequestCount = s.budget.dailyRequestCount ∧
      b'.dailyResetTime = s.budget.dailyResetTime := by
  refine ⟨_, waitForRateLimit_day_err s hcnt hcl, ?_, ?_⟩ <;>
    by_cases hm : s.budget.requestResetTime < s.clock <;> simp [hm]

/-- True when a `waitForRateLimit` call returned without throwing. -/
def RLResult.isOk : RLResult → Bool
  | RLResult.ok _ _ => true
  | RLResult.err _ _ _ => false

/-- When the day budget is not spent (or the day window has elapsed),
`waitForRateLimit` reserves a slot and never throws. -/
theorem waitForRateLimit_ok (s : RLState)
    (h : s.budget.dailyRequestCount < 1000 ∨ s.budget.dailyResetTime < s.clock) :
    (waitForRateLimit s).isOk = true := by
  by_cases hday : s.budget.dailyResetTime < s.clock
  · by_cases hm : s.budget.requestResetTime < s.clock <;>
      simp [waitForRateLimit, RLResult.isOk, hm, hday]
  · rcases h with h | h
    · by_cases hm : s.budget.requestResetTime < s.clock <;>
        simp [waitForRateLimit, RLResult.isOk, hm, hday, not_le.mpr h]
    · exact absurd h hday

/-! ## Concrete scenario objects used by witnesses and counterexamples -/

/-- A fresh rate-limiter state at clock 0. -/
def rlFresh : RLState := ⟨⟨0, 60000, 0, 86400000, 0⟩, 0⟩

/-- A rate-limiter state whose day budget is spent, the day window ending far
in the future. -/
def rlExhausted : RLState := ⟨⟨0, 60000, 1000, 1000000000, 0⟩, 0⟩

/-- A small concrete candidate article. -/
def artA : Article := ⟨"t1".data, "d1".data, "c1".data, "u1", 0, "s", none⟩

/-- A second candidate article with a distinct URL. -/
def artB : Article := ⟨"t2".data, "d2".data, "c2".data, "u2", 0, "s", none⟩

/-- Oracles whose summarization always yields `"sum"` and whose embedding
always yields a 768-float vector. -/
def envOk : PipeEnv :=
  ⟨fun _ _ _ => AttemptOutcome.ok "sum".data,
   fun _ _ _ => AttemptOutcome.ok (List.replicate 768 1)⟩

/-! ## Claim theorems -/

/-- C3: when the day counter has reached the 1000 cap and the day window has
not yet elapsed, `acquire` throws the quota-exhausted error immediately with
no sleep performed first; in every other state it does not throw. -/
theorem claim_C3_acquire_day_exhausted (s : RLState) :
    (1000 ≤ s.budget.dailyRequestCount → s.clock ≤ s.budget.dailyResetTime →
      ∃ s', waitForRateLimit s = RLResult.err quotaExhaustedMsg s' []) ∧
    (s.budget.dailyRequestCount < 1000 ∨ s.budget.dailyResetTime < s.clock →
      (waitForRateLimit s).isOk = true) := by
  exact ⟨fun h1 h2 => ⟨_, waitForRateLimit_day_err s h1 h2⟩, waitForRateLimit_ok s⟩

/-- Witness for C3 at a day-exhausted state and at a fresh state. -/
theorem claim_C3_acquire_day_exhausted_witness :
    (∃ s', waitForRateLimit rlExhausted = RLResult.err quotaExhaustedMsg s' []) ∧
    (waitForRateLimit rlFresh).isOk = true :=
  ⟨(claim_C3_acquire_day_exhausted rlExhausted).1 (by decide) (by decide),
   (claim_C3_acquire_day_exhausted rlFresh).2 (Or.inl (by decide))⟩

/-- C10: `resetCounters` resets only the minute-window state; the day
counter, the day window end, the last-call timestamp and the clock are
unchanged, so the daily quota accounting cannot be bypassed through it. -/
theorem claim_C10_resetCounters_frame (s : RLState) :
    (resetCounters s).budget.dailyRequestCount = s.budget.dailyRequestCount ∧
    (resetCounters s).budget.dailyResetTime = s.budget.dailyResetTime ∧
    (resetCounters s).budget.lastRequestTime = s.budget.lastRequestTime ∧
    (resetCounters s).clock = s.clock ∧
    (resetCounters s).budget.requestCount = 0 ∧
    (resetCounters s).budget.requestResetTime = s.clock + 60000 := by
  simp [resetCounters]

/-- Counterexample to C9: a 3001-character input is submitted to the
summarization call as 3003 characters (the first 3000 plus the three-dot
suffix), exceeding the claimed 3000-character bound. -/
theorem claim_C9_summary_trunc_cex :
    (truncatedSummaryInput (List.replicate 3001 'a')).length = 3003 ∧
    3000 < (truncatedSummaryInput (List.replicate 3001 'a')).length := by
  have h : (truncatedSummaryInput (List.replicate 3001 'a')).length = 3003 := by
    rw [truncatedSummaryInput, List.length_replicate]
    norm_num [summaryMaxLength]
  exact ⟨h, by omega⟩

/-- C9 as amended: the text submitted to summarization is the input truncated
to at most 3003 characters (3000 plus the `"..."` suffix, inputs of at most
3000 characters passing through unchanged), wrapped in a fixed 65-character
prompt; the text submitted to embedding is at most 2000 characters, inputs
within that limit passing through unchanged.  Truncation is a total function
of the input, hence deterministic and never an error. -/
theorem claim_C9_trunc_policy (t : List Char) :
    (truncatedSummaryInput t).length ≤ 3003 ∧
    (t.length ≤ 3000 → truncatedSummaryInput t = t) ∧
    (summaryPrompt (truncatedSummaryInput t)).length =
      (truncatedSummaryInput t).length + 65 ∧
    (truncatedEmbeddingInput t).length ≤ 2000 ∧
    (t.length ≤ 2000 → truncatedEmbeddingInput t = t) := by
  refine ⟨?_, ?_, ?_, ?_, ?_⟩
  · rw [truncatedSummaryInput]
    split
    · simp only [List.length_append, List.length_take, List.length_cons, List.length_nil,
        summaryMaxLength]
      omega
    · simp only [summaryMaxLength, not_lt] at *
      omega
  · intro h
    rw [truncatedSummaryInput]
    split
    · simp only [summaryMaxLength] at *
      omega
    · rfl
  · have hpre : summaryPromptPre.length = 55 := rfl
    have hpost : summaryPromptPost.length = 10 := rfl
    simp only [summaryPrompt, List.length_append]
    omega
  · rw [truncatedEmbeddingInput]
    split
    · simp only [List.length_take]
      have h2 : embeddingMaxLength = 2000 := rfl
      omega
    · simp only [embeddingMaxLength, not_lt] at *
      omega
  · intro h
    rw [truncatedEmbeddingInput]
    split
    · simp only [embeddingMaxLength] at *
      omega
    · rfl

/-- Witness for C9 as amended: a two-character input passes through both
truncations unchanged. -/
theorem claim_C9_trunc_policy_witness :
    truncatedSummaryInput "ab".data = "ab".data ∧
    truncatedEmbeddingInput "ab".data = "ab".data :=
  ⟨(claim_C9_trunc_policy "ab".data).2.1 (by decide),
   (claim_C9_trunc_policy "ab".data).2.2.2.2 (by decide)⟩

set_option maxRecDepth 8000 in
/-- Counterexample to C7: the second-variant entry points perform no clamp —
requesting 10 articles fetches 10 candidates (`total = 10`), so maxArticles
is not reduced to the claimed ceiling of 3. -/
theorem claim_C7_clamp_cex :
    (ingestNews_v2 envOk (fun _ n => List.replicate n artA) "general" 10 [] rlExhausted).1.total
        = 10 ∧
    (searchAndIngest_v2 envOk (fun _ n => List.replicate n artA) "q" 10 [] rlExhausted).1.total
        = 10 ∧
    3 < 10 := by
  refine ⟨?_, ?_, by omega⟩ <;>
    simp [ingestNews_v2, searchAndIngest_v2, finishBatch]

/-- C7 as amended: the first-variant entry points clamp `maxArticles` to 3
(values above 3 silently reduced, values at or below 3 used unchanged) and
never reject a value; the second-variant entry points pass the caller's
value through to the fetch unclamped, so `total` equals the length of the
fetch at the raw value. -/
theorem claim_C7_clamp_amended (env : PipeEnv) (ff sf : String → Nat → List Article)
    (cat q : String) (max : Nat) (store : List CreatedRecord) (rl : RLState) :
    ingestNews_v1 env ff cat max store rl = ingestNews_v1 env ff cat (min max 3) store rl ∧
    searchAndIngest_v1 env sf q max store rl
        = searchAndIngest_v1 env sf q (min max 3) store rl ∧
    (ingestNews_v2 env ff cat max store rl).1.total = (ff cat max).length ∧
    (searchAndIngest_v2 env sf q max store rl).1.total = (sf q max).length := by
  have hmin : (if 3 < max then 3 else max) = min max 3 := by
    rcases Nat.lt_or_ge 3 max with h | h
    · simp [h, Nat.min_eq_right (le_of_lt h)]
    · simp [Nat.not_lt.mpr h, Nat.min_eq_left h]
  have hmin3 : ¬ 3 < min max 3 := not_lt.mpr (Nat.min_le_right _ _)
  refine ⟨?_, ?_, ?_, ?_⟩ <;>
    simp [ingestNews_v1, searchAndIngest_v1, ingestNews_v2, searchAndIngest_v2, finishBatch,
      hmin, hmin3]

/-- Counter bookkeeping of the first-variant loop: every candidate ends in
exactly one of success, failed or skipped, so the three counters always grow
by exactly the number of candidates processed. -/
theorem loopV1_counts (env : PipeEnv) (cat : Option String) (arts : List Article) :
    ∀ (i : Nat) (st : LoopState),
      (loopV1 env cat i arts st).success + (loopV1 env cat i arts st).failed +
          (loopV1 env cat i arts st).skipped
        = st.success + st.failed + st.skipped + arts.length := by
  induction arts with
  | nil => intro i st; simp [loopV1]
  | cons a rest ih =>
    intro i st
    simp only [loopV1]
    split
    · rw [ih]
      simp only [List.length_cons]
      omega
    · split
      · rw [ih]
        simp only [List.length_cons]
        omega
      · rw [ih]
        simp only [List.length_cons]
        omega

/-- Counter bookkeeping of the second-variant loop: the counters grow by at
most the number of candidates, and any shortfall comes with an early-stop
`quotaEntryMsg` entry in the error list. -/
theorem loopV2_counts (env : PipeEnv) (cat : Option String) (arts : List Article) :
    ∀ (i : Nat) (st : LoopState),
      ((loopV2 env cat i arts st).success + (loopV2 env cat i arts st).failed +
          (loopV2 env cat i arts st).skipped
        ≤ st.success + st.failed + st.skipped + arts.length) ∧
      ((loopV2 env cat i arts st).success + (loopV2 env cat i arts st).failed +
          (loopV2 env cat i arts st).skipped
          < st.success + st.failed + st.skipped + arts.length →
        ∃ n, quotaEntryMsg n ∈ (loopV2 env cat i arts st).errors) := by
  induction arts with
  | nil =>
    intro i st
    constructor
    · simp [loopV2]
    · intro h
      simp only [loopV2, List.length_nil, Nat.add_zero] at h
      exact absurd h (lt_irrefl _)
  | cons a rest ih =>
    intro i st
    simp only [loopV2]
    split
    · obtain ⟨h1, h2⟩ := ih (i + 1) { st with skipped := st.skipped + 1 }
      dsimp only at h1 h2
      constructor
      · simp only [List.length_cons]
        omega
      · intro h
        simp only [List.length_cons] at h
        exact h2 (by omega)
    · split
      · split
        · dsimp only
          constructor
          · simp only [List.length_cons]
            omega
          · exact fun _ => ⟨st.success, by simp⟩
        · rename_i e rl2 sl2 heq hq
          obtain ⟨h1, h2⟩ := ih (i + 1)
            { st with
              failed := st.failed + 1,
              rl := rl2,
              errors := st.errors ++ [a.url ++ ": " ++ e.message] }
          dsimp only at h1 h2
          constructor
          · simp only [List.length_cons]
            omega
          · intro h
            simp only [List.length_cons] at h
            exact h2 (by omega)
      · rename_i summary emb rl2 sl2 heq
        obtain ⟨h1, h2⟩ := ih (i + 1)
          { st with
            success := st.success + 1,
            store := st.store ++ [mkRecordV2 a cat summary emb],
            rl := rl2 }
        dsimp only at h1 h2
        constructor
        · simp only [List.length_cons]
          omega
        · intro h
          simp only [List.length_cons] at h
          exact h2 (by omega)

/-- C1: for every batch run of any of the four entry points,
`success + failed + skipped ≤ total`, and a strict shortfall occurs only
with an early-stop `quotaEntryMsg` entry in the error list (the first
variant always satisfies the equality). -/
theorem claim_C1_batch_counts (env : PipeEnv) (ff sf : String → Nat → List Article)
    (cat q : String) (max : Nat) (store : List CreatedRecord) (rl : RLState) :
    ((ingestNews_v1 env ff cat max store rl).1.success
        + (ingestNews_v1 env ff cat max store rl).1.failed
        + (ingestNews_v1 env ff cat max store rl).1.skipped
      = (ingestNews_v1 env ff cat max store rl).1.total) ∧
    ((searchAndIngest_v1 env sf q max store rl).1.success
        + (searchAndIngest_v1 env sf q max store rl).1.failed
        + (searchAndIngest_v1 env sf q max store rl).1.skipped
      = (searchAndIngest_v1 env sf q max store rl).1.total) ∧
    ((ingestNews_v2 env ff cat max store rl).1.success
        + (ingestNews_v2 env ff cat max store rl).1.failed
        + (ingestNews_v2 env ff cat max store rl).1.skipped
      ≤ (ingestNews_v2 env ff cat max store rl).1.total) ∧
    ((ingestNews_v2 env ff cat max store rl).1.success
        + (ingestNews_v2 env ff cat max store rl).1.failed
        + (ingestNews_v2 env ff cat max store rl).1.skipped
      < (ingestNews_v2 env ff cat max store rl).1.total →
      ∃ n, quotaEntryMsg n ∈ (ingestNews_v2 env ff cat max store rl).1.errors) ∧
    ((searchAndIngest_v2 env sf q max store rl).1.success
        + (searchAndIngest_v2 env sf q max store rl).1.failed
        + (searchAndIngest_v2 env sf q max store rl).1.skipped
      ≤ (searchAndIngest_v2 env sf q max store rl).1.total) ∧
    ((searchAndIngest_v2 env sf q max store rl).1.success
        + (searchAndIngest_v2 env sf q max store rl).1.failed
        + (searchAndIngest_v2 env sf q max store rl).1.skipped
      < (searchAndIngest_v2 env sf q max store rl).1.total →
      ∃ n, quotaEntryMsg n ∈ (searchAndIngest_v2 env sf q max store rl).1.errors) := by
  simp only [ingestNews_v1, searchAndIngest_v1, ingestNews_v2, searchAndIngest_v2, finishBatch]
  refine ⟨?_, ?_, ?_, ?_, ?_, ?_⟩
  · have h := loopV1_counts env (some cat) (ff cat (if 3 < max then 3 else max)) 0
      (initLoopState store rl)
    simpa [initLoopState] using h
  · have h := loopV1_counts env none (sf q (if 3 < max then 3 else max)) 0
      (initLoopState store rl)
    simpa [initLoopState] using h
  · have h := (loopV2_counts env (some cat) (ff cat max) 0 (initLoopState store rl)).1
    simpa [initLoopState] using h
  · intro hlt
    have h := (loopV2_counts env (some cat) (ff cat max) 0 (initLoopState store rl)).2
    exact h (by simpa [initLoopState] using hlt)
  · have h := (loopV2_counts env none (sf q max) 0 (initLoopState store rl)).1
    simpa [initLoopState] using h
  · intro hlt
    have h := (loopV2_counts env none (sf q max) 0 (initLoopState store rl)).2
    exact h (by simpa [initLoopState] using hlt)

set_option maxRecDepth 4000 in
/-- Witness for C1: in a concrete second-variant run that stops early
(day budget exhausted, two fetched candidates), the counters fall short of
`total` and an early-stop entry is present. -/
theorem claim_C1_batch_counts_witness :
    ∃ n, quotaEntryMsg n ∈
      (ingestNews_v2 envOk (fun _ _ => [artA, artB]) "general" 10 [] rlExhausted).1.errors :=
  (claim_C1_batch_counts envOk (fun _ _ => [artA, artB]) (fun _ _ => [artA, artB])
    "general" "q" 10 [] rlExhausted).2.2.2.1 (by decide)

set_option maxRecDepth 4000 in
/-- Counterexample to C2: in the first variant, after candidate 1 fails with
the quota-classified error (`quotaWrapMsg` contains "quota exceeded"),
candidate 2 is still attempted — `failed` reaches 2 and both error entries
are quota-classified, so processing did not stop at the first quota
failure. -/
theorem claim_C2_quota_stop_cex :
    (ingestNews_v1 envOk (fun _ _ => [artA, artB]) "general" 2 [] rlExhausted).1 =
      ⟨0, 2, 0, 2, [quotaWrapMsg, quotaWrapMsg]⟩ ∧
    strIncludes quotaWrapMsg "quota exceeded" = true := by
  exact ⟨by decide, by decide⟩

/-- C2 as amended: on a quota-classified enrichment failure the second
variant increments `failed`, appends the early-stop entry and processes no
further candidates; the first variant increments `failed`, appends the raw
message and continues with the remaining candidates. -/
theorem claim_C2_quota_stop_amended (env : PipeEnv) (cat : Option String) (i : Nat)
    (a : Article) (rest : List Article) (st : LoopState) (e : JsError) (rl2 : RLState)
    (sl : List Int)
    (hdup : existsByUrl st.store a.url = false)
    (henr : generateSummaryAndEmbedding (env.sumUp i) (env.embUp i) (contentForAI a) st.rl
      = (Except.error e, rl2, sl))
    (hq : strIncludes e.message "quota exceeded" = true) :
    loopV2 env cat i (a :: rest) st =
      { st with failed := st.failed + 1, rl := rl2,
                errors := st.errors ++ [quotaEntryMsg st.success] } ∧
    loopV1 env cat i (a :: rest) st =
      loopV1 env cat (i + 1) rest
        { st with failed := st.failed + 1, errors := st.errors ++ [e.message], rl := rl2 } := by
  constructor
  · simp only [loopV2, hdup, henr, hq, Bool.false_eq_true, if_false, if_true]
  · simp only [loopV1, hdup, henr, Bool.false_eq_true, if_false]

set_option maxRecDepth 4000 in
/-- Witness for C2 as amended, at a concrete day-exhausted state: the second
variant stops right after the failing candidate with the early-stop entry. -/
theorem claim_C2_quota_stop_amended_witness :
    loopV2 envOk (some "general") 0 [artA, artB] (initLoopState [] rlExhausted) =
      { initLoopState [] rlExhausted with
        failed := 1,
        rl := ⟨⟨0, 60000, 1000, 1000000000, 0⟩, 9000⟩,
        errors := [quotaEntryMsg 0] } :=
  (claim_C2_quota_stop_amended envOk (some "general") 0 artA [artB]
    (initLoopState [] rlExhausted) ⟨none, quotaWrapMsg, none⟩
    ⟨⟨0, 60000, 1000, 1000000000, 0⟩, 9000⟩ [3000, 6000]
    (by decide) (by decide) (by decide)).1

/-! ## Character-level facts about printed numbers (used to evaluate the
`includes("quota")` tests on messages that embed a printed count) -/

/-- The decimal/hex digit printer never emits the letter q. -/
theorem digitChar_ne_q (n : Nat) : Nat.digitChar n ≠ 'q' := by
  by_cases h : n < 16
  · interval_cases n <;> decide
  · have hge : 16 ≤ n := le_of_not_lt h
    have h0 : ¬ n = 0 := by omega
    have h1 : ¬ n = 1 := by omega
    have h2 : ¬ n = 2 := by omega
    have h3 : ¬ n = 3 := by omega
    have h4 : ¬ n = 4 := by omega
    have h5 : ¬ n = 5 := by omega
    have h6 : ¬ n = 6 := by omega
    have h7 : ¬ n = 7 := by omega
    have h8 : ¬ n = 8 := by omega
    have h9 : ¬ n = 9 := by omega
    have h10 : ¬ n = 10 := by omega
    have h11 : ¬ n = 11 := by omega
    have h12 : ¬ n = 12 := by omega
    have h13 : ¬ n = 13 := by omega
    have h14 : ¬ n = 14 := by omega
    have h15 : ¬ n = 15 := by omega
    simp only [Nat.digitChar, h0, h1, h2, h3, h4, h5, h6, h7, h8, h9, h10, h11, h12, h13, h14, h15, if_false]
    decide

/-- `Nat.toDigitsCore` only prepends digit characters, so it never introduces
the letter q. -/
theorem toDigitsCore_no_q :
    ∀ (fuel n : Nat) (ds : List Char), 'q' ∉ ds → 'q' ∉ Nat.toDigitsCore 10 fuel n ds := by
  intro fuel
  induction fuel with
  | zero =>
    intro n ds h
    simpa [Nat.toDigitsCore] using h
  | succ f ih =>
    intro n ds h
    simp only [Nat.toDigitsCore]
    split
    · intro hmem
      rcases List.mem_cons.mp hmem with hq | hq
      · exact digitChar_ne_q (n % 10) hq.symm
      · exact h hq
    · refine ih (n / 10) (Nat.digitChar (n % 10) :: ds) ?_
      intro hmem
      rcases List.mem_cons.mp hmem with hq | hq
      · exact digitChar_ne_q (n % 10) hq.symm
      · exact h hq

/-- The printed form of a natural number contains no letter q. -/
theorem repr_no_q (n : Nat) : 'q' ∉ (Nat.repr n).data := by
  have h := toDigitsCore_no_q (n + 1) n [] (by simp)
  simpa [Nat.repr, Nat.toDigits, List.asString] using h

/-- `toString` on a natural number is `Nat.repr`. -/
theorem toString_nat_eq (n : Nat) : toString n = Nat.repr n := rfl

/-- `includes` is false whenever the needle's first character does not occur
in the haystack. -/
theorem containsSub_false_of_notMem (c : Char) (nd hay : List Char) (h : c ∉ hay) :
    containsSub (c :: nd) hay = false := by
  induction hay with
  | nil => simp [containsSub]
  | cons d rest ih =>
    have hcd : c ≠ d := fun hq => h (hq ▸ List.mem_cons_self d rest)
    have hrest : c ∉ rest := fun hq => h (List.mem_cons_of_mem d hq)
    simp only [containsSub, List.isPrefixOf, Bool.or_eq_false_iff]
    exact ⟨by simp [hcd], ih hrest⟩

/-- The invalid-embedding-dimensions error never passes the quota test of the
outer catches, whatever the offending length prints as. -/
theorem invalidDims_not_quotaLike (n : Nat) :
    isQuotaLike ⟨none, invalidDimsMsg n, none⟩ = false := by
  have hq : 'q' ∉ (invalidDimsMsg n).data := by
    intro hmem
    rw [invalidDimsMsg, String.data_append, toString_nat_eq] at hmem
    rcases List.mem_append.mp hmem with hm | hm
    · exact absurd hm (by decide)
    · exact repr_no_q n hm
  have hdata : ("quota" : String).data = 'q' :: "uota".data := rfl
  simp only [isQuotaLike, strIncludes, hdata, Bool.or_eq_false_iff]
  exact ⟨rfl, containsSub_false_of_notMem 'q' _ _ hq⟩

/-! ## Per-candidate step lemmas for the two loops -/

/-- Duplicate-URL step, both variants: increment `skipped` and move on; the
store, the rate limiter and the error list are untouched and no enrichment
happens for the candidate. -/
theorem loop_skip_step (env : PipeEnv) (cat : Option String) (i : Nat) (a : Article)
    (rest : List Article) (st : LoopState) (hdup : existsByUrl st.store a.url = true) :
    loopV1 env cat i (a :: rest) st
        = loopV1 env cat (i + 1) rest { st with skipped := st.skipped + 1 } ∧
    loopV2 env cat i (a :: rest) st
        = loopV2 env cat (i + 1) rest { st with skipped := st.skipped + 1 } := by
  constructor <;> simp only [loopV1, loopV2, hdup, if_true]

/-- Failed-enrichment step of the first variant: increment `failed`, push the
raw message, keep the store, continue with the rest. -/
theorem loopV1_err_step (env : PipeEnv) (cat : Option String) (i : Nat) (a : Article)
    (rest : List Article) (st : LoopState) (e : JsError) (rl2 : RLState) (sl : List Int)
    (hdup : existsByUrl st.store a.url = false)
    (henr : generateSummaryAndEmbedding (env.sumUp i) (env.embUp i) (contentForAI a) st.rl
      = (Except.error e, rl2, sl)) :
    loopV1 env cat i (a :: rest) st
      = loopV1 env cat (i + 1) rest
          { st with failed := st.failed + 1, errors := st.errors ++ [e.message], rl := rl2 } := by
  simp only [loopV1, hdup, henr, Bool.false_eq_true, if_false]

/-- Failed-enrichment step of the second variant, split by the quota test:
a quota-classified message stops the loop with the early-stop entry; any
other failure pushes the URL-prefixed message and continues.  The store is
untouched either way. -/
theorem loopV2_err_step (env : PipeEnv) (cat : Option String) (i : Nat) (a : Article)
    (rest : List Article) (st : LoopState) (e : JsError) (rl2 : RLState) (sl : List Int)
    (hdup : existsByUrl st.store a.url = false)
    (henr : generateSummaryAndEmbedding (env.sumUp i) (env.embUp i) (contentForAI a) st.rl
      = (Except.error e, rl2, sl)) :
    (strIncludes e.message "quota exceeded" = true →
      loopV2 env cat i (a :: rest) st
        = { st with failed := st.failed + 1, rl := rl2,
                    errors := st.errors ++ [quotaEntryMsg st.success] }) ∧
    (strIncludes e.message "quota exceeded" = false →
      loopV2 env cat i (a :: rest) st
        = loopV2 env cat (i + 1) rest
            { st with failed := st.failed + 1, rl := rl2,
                      errors := st.errors ++ [a.url ++ ": " ++ e.message] }) := by
  constructor <;> intro hq <;>
    simp only [loopV2, hdup, henr, hq, Bool.false_eq_true, if_false, if_true]

/-- A URL reported absent by `existsByUrl` is not among the stored URLs. -/
theorem existsByUrl_false_not_mem (store : List CreatedRecord) (u : String)
    (h : existsByUrl store u = false) : u ∉ store.map CreatedRecord.url := by
  intro hmem
  rcases List.mem_map.mp hmem with ⟨r, hr, hru⟩
  have ht : existsByUrl store u = true := by
    unfold existsByUrl
    rw [List.any_eq_true]
    exact ⟨r, hr, beq_iff_eq.mpr hru⟩
  rw [ht] at h
  cases h

/-- The first-variant loop preserves URL-uniqueness of the store: a row is
only created after `existsByUrl` reported the URL absent. -/
theorem loopV1_store_nodup (env : PipeEnv) (cat : Option String) (arts : List Article) :
    ∀ (i : Nat) (st : LoopState), (st.store.map CreatedRecord.url).Nodup →
      ((loopV1 env cat i arts st).store.map CreatedRecord.url).Nodup := by
  induction arts with
  | nil =>
    intro i st h
    simpa [loopV1] using h
  | cons a rest ih =>
    intro i st h
    simp only [loopV1]
    split
    · exact ih (i + 1) { st with skipped := st.skipped + 1 } (by simpa using h)
    · rename_i hdup
      split
      · exact ih (i + 1) _ (by simpa using h)
      · rename_i summary emb rl2 sl2 heq
        refine ih (i + 1) _ ?_
        dsimp only
        rw [List.map_append]
        have hnotmem : a.url ∉ st.store.map CreatedRecord.url :=
          existsByUrl_false_not_mem st.store a.url (by simpa using hdup)
        simp [List.nodup_append, h, hnotmem, mkRecordV1]

/-- The second-variant loop preserves URL-uniqueness of the store. -/
theorem loopV2_store_nodup (env : PipeEnv) (cat : Option String) (arts : List Article) :
    ∀ (i : Nat) (st : LoopState), (st.store.map CreatedRecord.url).Nodup →
      ((loopV2 env cat i arts st).store.map CreatedRecord.url).Nodup := by
  induction arts with
  | nil =>
    intro i st h
    simpa [loopV2] using h
  | cons a rest ih =>
    intro i st h
    simp only [loopV2]
    split
    · exact ih (i + 1) { st with skipped := st.skipped + 1 } (by simpa using h)
    · rename_i hdup
      split
      · split
        · simpa using h
        · exact ih (i + 1) _ (by simpa using h)
      · rename_i summary emb rl2 sl2 heq
        refine ih (i + 1) _ ?_
        dsimp only
        rw [List.map_append]
        have hnotmem : a.url ∉ st.store.map CreatedRecord.url :=
          existsByUrl_false_not_mem st.store a.url (by simpa using hdup)
        simp [List.nodup_append, h, hnotmem, mkRecordV2]

/-- C8: a candidate whose URL the store already contains is counted as
skipped and the loop moves on — no enrichment and no persistence for it
(the continuation state differs only in `skipped`); and both loops preserve
URL-uniqueness of the store, so a URL can never be persisted twice. -/
theorem claim_C8_dedup (env : PipeEnv) (cat : Option String) :
    (∀ (i : Nat) (a : Article) (rest : List Article) (st : LoopState),
      existsByUrl st.store a.url = true →
        loopV1 env cat i (a :: rest) st
            = loopV1 env cat (i + 1) rest { st with skipped := st.skipped + 1 } ∧
        loopV2 env cat i (a :: rest) st
            = loopV2 env cat (i + 1) rest { st with skipped := st.skipped + 1 }) ∧
    (∀ (arts : List Article) (i : Nat) (st : LoopState),
      (st.store.map CreatedRecord.url).Nodup →
        ((loopV1 env cat i arts st).store.map CreatedRecord.url).Nodup ∧
        ((loopV2 env cat i arts st).store.map CreatedRecord.url).Nodup) :=
  ⟨fun i a rest st h => loop_skip_step env cat i a rest st h,
   fun arts i st h =>
     ⟨loopV1_store_nodup env cat arts i st h, loopV2_store_nodup env cat arts i st h⟩⟩

/-- The row already stored in the dedup witness (URL `"u1"`, the same as
`artA`). -/
def recA : CreatedRecord := mkRecordV1 artA (some "general") "sum".data (List.replicate 768 1)

set_option maxRecDepth 4000 in
/-- Witness for C8: re-submitting `artA`, whose URL is already stored, yields
a skip with nothing else changed; and a successful run over a fresh URL keeps
the stored URLs duplicate-free. -/
theorem claim_C8_dedup_witness :
    (loopV1 envOk (some "general") 0 [artA] ⟨0, 0, 0, [], [recA], rlFresh⟩
        = loopV1 envOk (some "general") 1 [] ⟨0, 0, 1, [], [recA], rlFresh⟩) ∧
    ((loopV1 envOk (some "general") 0 [artB]
        ⟨0, 0, 0, [], [recA], rlFresh⟩).store.map CreatedRecord.url).Nodup :=
  ⟨((claim_C8_dedup envOk (some "general")).1 0 artA []
      ⟨0, 0, 0, [], [recA], rlFresh⟩ (by decide)).1,
   ((claim_C8_dedup envOk (some "general")).2 [artB] 0
      ⟨0, 0, 0, [], [recA], rlFresh⟩ (by decide)).1⟩

/-- C6: an upstream embedding result of a length other than 768 makes
`generateEmbedding` fail with the invalid-embedding-dimensions error (wrapped
by the outer catch, whatever the offending length); that failure aborts the
whole enrichment; and a candidate whose enrichment fails contributes a
`failed` increment and an error entry, with no persistence call — the store
is untouched for that candidate. -/
theorem claim_C6_embedding_dim :
    (∀ (up : List Char → Nat → AttemptOutcome (List Int)) (text : List Char) (s : RLState)
        (emb : List Int),
      (retryWithBackoff (fun attempt => up (truncatedEmbeddingInput text) attempt)
          "Embedding generation" 3 3000 s).result = Except.ok emb →
      emb.length ≠ 768 →
      (generateEmbedding up text s).1
        = Except.error ⟨none, "Embedding generation failed: " ++ invalidDimsMsg emb.length,
            none⟩) ∧
    (∀ (sumUp : List Char → Nat → AttemptOutcome (List Char))
        (embUp : List Char → Nat → AttemptOutcome (List Int))
        (text : List Char) (s : RLState) (summary : List Char) (s1 : RLState) (sl1 : List Int)
        (e : JsError) (s2 : RLState) (sl2 : List Int),
      generateSummary sumUp text s = (Except.ok summary, s1, sl1) →
      generateEmbedding embUp text { s1 with clock := s1.clock + 2000 }
        = (Except.error e, s2, sl2) →
      (generateSummaryAndEmbedding sumUp embUp text s).1 = Except.error e) ∧
    (∀ (env : PipeEnv) (cat : Option String) (i : Nat) (a : Article) (rest : List Article)
        (st : LoopState) (e : JsError) (rl2 : RLState) (sl : List Int),
      existsByUrl st.store a.url = false →
      generateSummaryAndEmbedding (env.sumUp i) (env.embUp i) (contentForAI a) st.rl
        = (Except.error e, rl2, sl) →
      loopV1 env cat i (a :: rest) st
        = loopV1 env cat (i + 1) rest
            { st with failed := st.failed + 1, errors := st.errors ++ [e.message],
                      rl := rl2 }) := by
  refine ⟨?_, ?_, ?_⟩
  · intro up text s emb hok hne
    simp only [generateEmbedding, hok]
    rw [if_pos hne]
    simp [invalidDims_not_quotaLike]
  · intro sumUp embUp text s summary s1 sl1 e s2 sl2 hsum hemb
    simp only [generateSummaryAndEmbedding, hsum, hemb]
  · intro env cat i a rest st e rl2 sl hdup henr
    exact loopV1_err_step env cat i a rest st e rl2 sl hdup henr

/-- Oracles whose embedding model answers with a 700-float vector. -/
def envBadEmb : PipeEnv :=
  ⟨fun _ _ _ => AttemptOutcome.ok "sum".data,
   fun _ _ _ => AttemptOutcome.ok (List.replicate 700 0)⟩

set_option maxRecDepth 4000 in
/-- Witness for C6: a concrete 700-float upstream embedding makes the
enrichment fail with the invalid-dimensions message and the candidate is
recorded as failed with the store untouched. -/
theorem claim_C6_embedding_dim_witness :
    ((generateEmbedding (envBadEmb.embUp 0) (contentForAI artA) rlFresh).1
      = Except.error ⟨none, "Embedding generation failed: " ++ invalidDimsMsg 700, none⟩) ∧
    ((generateSummaryAndEmbedding (envBadEmb.sumUp 0) (envBadEmb.embUp 0) (contentForAI artA)
        rlFresh).1
      = Except.error ⟨none, "Embedding generation failed: " ++ invalidDimsMsg 700, none⟩) ∧
    (loopV1 envBadEmb (some "general") 0 [artA] (initLoopState [] rlFresh)
      = loopV1 envBadEmb (some "general") 1 []
          { initLoopState [] rlFresh with
            failed := 1,
            errors := ["Embedding generation failed: " ++ invalidDimsMsg 700],
            rl := ⟨⟨2, 60000, 2, 86400000, 12000⟩, 12000⟩ }) := by
  refine ⟨?_, ?_, ?_⟩
  · exact (claim_C6_embedding_dim).1 (envBadEmb.embUp 0) (contentForAI artA) rlFresh
      (List.replicate 700 0) (by decide) (by decide)
  · exact (claim_C6_embedding_dim).2.1 (envBadEmb.sumUp 0) (envBadEmb.embUp 0)
      (contentForAI artA) rlFresh "sum".data
      ⟨⟨1, 60000, 1, 86400000, 6000⟩, 6000⟩ [6000] ⟨none,
        "Embedding generation failed: " ++ invalidDimsMsg 700, none⟩
      ⟨⟨2, 60000, 2, 86400000, 12000⟩, 12000⟩ [4000] (by decide) (by decide)
  · exact (claim_C6_embedding_dim).2.2 envBadEmb (some "general") 0 artA []
      (initLoopState [] rlFresh)
      ⟨none, "Embedding generation failed: " ++ invalidDimsMsg 700, none⟩
      ⟨⟨2, 60000, 2, 86400000, 12000⟩, 12000⟩ [6000, 2000, 4000] (by decide) (by decide)

set_option maxRecDepth 4000 in
/-- Counterexample to C4: with the day budget spent, a `retryWithBackoff` run
with `maxRetries = 3` performs two backoff sleeps (3000 ms then 6000 ms) and
three acquire attempts before propagating the quota-exhausted error — the
error is not propagated immediately and backoff sleeps do occur.  The
operation itself is never invoked (`fnCalls = 0`). -/
theorem claim_C4_acquire_quota_cex :
    (retryWithBackoff (fun _ => AttemptOutcome.ok (0 : Nat)) "op" 3 3000 rlExhausted).result
        = Except.error ⟨none, quotaExhaustedMsg, none⟩ ∧
    (retryWithBackoff (fun _ => AttemptOutcome.ok (0 : Nat)) "op" 3 3000 rlExhausted).sleeps
        = [3000, 6000] ∧
    (retryWithBackoff (fun _ => AttemptOutcome.ok (0 : Nat)) "op" 3 3000 rlExhausted).fnCalls
        = 0 :=
  ⟨by decide, by decide, by decide⟩

/-- Generalized loop invariant behind the amended C4: while the day budget
stays spent (day counter at the cap and the clock staying within the day
window across all backoff sleeps), every remaining iteration's acquire throws,
the error is treated as an ordinary transient failure (one backoff sleep per
non-final iteration), the operation is never invoked, and the quota-exhausted
error is propagated only on the final iteration. -/
theorem retryAux_day_exhausted {α : Type} (fn : Nat → AttemptOutcome α) (op : String)
    (m : Nat) (il : Int) :
    ∀ (r : Nat), ∀ (a : Nat) (le : Option JsError) (s : RLState),
      a + (r + 1) = m →
      1000 ≤ s.budget.dailyRequestCount →
      0 ≤ il →
      s.clock + il * (2 ^ (m - 1) - 2 ^ a) ≤ s.budget.dailyResetTime →
      (retryAux fn op m il a (r + 1) le s).result
          = Except.error ⟨none, quotaExhaustedMsg, none⟩ ∧
      (retryAux fn op m il a (r + 1) le s).fnCalls = 0 ∧
      (retryAux fn op m il a (r + 1) le s).sleeps.length = r := by
  intro r
  induction r with
  | zero =>
    intro a le s hm hcnt hil hcl
    have ha : a = m - 1 := by omega
    have hz : (2 : Int) ^ (m - 1) - 2 ^ a = 0 := by rw [ha]; ring
    have hcl0 : s.clock ≤ s.budget.dailyResetTime := by
      rw [hz, mul_zero, add_zero] at hcl
      exact hcl
    obtain ⟨b', heq, hb1, hb2⟩ := waitForRateLimit_err_inv s hcnt hcl0
    have hlt : ¬ a < m - 1 := by omega
    simp only [retryAux, heq, hlt, if_false]
    exact ⟨trivial, trivial, rfl⟩
  | succ r ih =>
    intro a le s hm hcnt hil hcl
    have hmono : (2 : Int) ^ a ≤ 2 ^ (m - 1) := by
      apply pow_le_pow_right₀ (by norm_num)
      omega
    have hprod : 0 ≤ il * ((2 : Int) ^ (m - 1) - 2 ^ a) := mul_nonneg hil (by linarith)
    have hcl0 : s.clock ≤ s.budget.dailyResetTime := by linarith
    obtain ⟨b', heq, hb1, hb2⟩ := waitForRateLimit_err_inv s hcnt hcl0
    have hlt : a < m - 1 := by omega
    obtain ⟨ih1, ih2, ih3⟩ := ih (a + 1) (some ⟨none, quotaExhaustedMsg, none⟩)
      ⟨b', s.clock + il * 2 ^ a⟩ (by omega)
      (by dsimp only; rw [hb1]; exact hcnt) hil
      (by dsimp only
          rw [hb2]
          calc s.clock + il * 2 ^ a + il * ((2 : Int) ^ (m - 1) - 2 ^ (a + 1))
              = s.clock + il * (2 ^ (m - 1) - 2 ^ a) := by ring
            _ ≤ s.budget.dailyResetTime := hcl)
    have hred : retryAux fn op m il a (r + 1 + 1) le s
        = ⟨(retryAux fn op m il (a + 1) (r + 1) (some ⟨none, quotaExhaustedMsg, none⟩)
              ⟨b', s.clock + il * 2 ^ a⟩).result,
           (retryAux fn op m il (a + 1) (r + 1) (some ⟨none, quotaExhaustedMsg, none⟩)
              ⟨b', s.clock + il * 2 ^ a⟩).state,
           il * 2 ^ a ::
             (retryAux fn op m il (a + 1) (r + 1) (some ⟨none, quotaExhaustedMsg, none⟩)
              ⟨b', s.clock + il * 2 ^ a⟩).sleeps,
           (retryAux fn op m il (a + 1) (r + 1) (some ⟨none, quotaExhaustedMsg, none⟩)
              ⟨b', s.clock + il * 2 ^ a⟩).fnCalls⟩ := by
      simp only [retryAux, heq, hlt, if_true, List.nil_append]
    rw [hred]
    exact ⟨ih1, ih2, by rw [List.length_cons, ih3]⟩

/-- C4 as amended: the acquire is performed before every attempt, but a
quota-exhausted acquire failure is treated like any other failure — it is
retried with exponential backoff while attempts remain (one backoff sleep per
non-final attempt, the operation never invoked) and the quota-exhausted
error is propagated only once all `maxRetries` attempts are spent. -/
theorem claim_C4_acquire_quota_retried (α : Type) (fn : Nat → AttemptOutcome α) (op : String)
    (m : Nat) (il : Int) (s : RLState)
    (hm : 1 ≤ m) (hcnt : 1000 ≤ s.budget.dailyRequestCount) (hil : 0 ≤ il)
    (hcl : s.clock + il * (2 ^ (m - 1) - 1) ≤ s.budget.dailyResetTime) :
    (retryWithBackoff fn op m il s).result = Except.error ⟨none, quotaExhaustedMsg, none⟩ ∧
    (retryWithBackoff fn op m il s).fnCalls = 0 ∧
    (retryWithBackoff fn op m il s).sleeps.length = m - 1 := by
  obtain ⟨h1, h2, h3⟩ := retryAux_day_exhausted fn op m il (m - 1) 0 none s (by omega) hcnt hil
    (by simpa using hcl)
  have hrw : m - 1 + 1 = m := by omega
  rw [hrw] at h1 h2 h3
  exact ⟨h1, h2, h3⟩

/-- Witness for C4 as amended: the concrete day-exhausted run with the
default `maxRetries = 3` and `initialDelay = 3000`. -/
theorem claim_C4_acquire_quota_retried_witness :
    (retryWithBackoff (fun _ => AttemptOutcome.ok (1 : Nat)) "Summary generation" 3 3000
        rlExhausted).result = Except.error ⟨none, quotaExhaustedMsg, none⟩ ∧
    (retryWithBackoff (fun _ => AttemptOutcome.ok (1 : Nat)) "Summary generation" 3 3000
        rlExhausted).fnCalls = 0 ∧
    (retryWithBackoff (fun _ => AttemptOutcome.ok (1 : Nat)) "Summary generation" 3 3000
        rlExhausted).sleeps.length = 3 - 1 :=
  claim_C4_acquire_quota_retried Nat (fun _ => AttemptOutcome.ok 1) "Summary generation" 3 3000
    rlExhausted (by decide) (by decide) (by decide) (by decide)

/-- The operation is invoked at most once per loop iteration, so a run never
performs more tries than `maxRetries`. -/
theorem retryAux_fnCalls_le {α : Type} (fn : Nat → AttemptOutcome α) (op : String)
    (m : Nat) (il : Int) :
    ∀ (rem a : Nat) (le : Option JsError) (s : RLState),
      (retryAux fn op m il a rem le s).fnCalls ≤ rem := by
  intro rem
  induction rem with
  | zero => intro a le s; simp [retryAux]
  | succ r ih =>
    intro a le s
    simp only [retryAux]
    split
    · split
      · dsimp only
        exact Nat.le_succ_of_le (ih (a + 1) _ _)
      · dsimp only
        exact Nat.zero_le _
    · split
      · dsimp only
        omega
      · split
        · dsimp only
          omega
        · split
          · split
            · dsimp only
              exact Nat.succ_le_succ (ih (a + 1) _ _)
            · dsimp only
              omega
          · split
            · dsimp only
              exact Nat.succ_le_succ (ih (a + 1) _ _)
            · dsimp only
              omega

/-- The terminal 429 message differs from the rate-limiter-side quota
message: their lengths differ (70 plus the printed attempt count against
56). -/
theorem rateLimitMsg_ne_quotaMsg (n : Nat) : rateLimitExceededMsg n ≠ quotaExhaustedMsg := by
  intro h
  have hlen := congrArg String.length h
  rw [rateLimitExceededMsg, quotaExhaustedMsg, String.length_append, String.length_append] at hlen
  have h1 : ("Rate limit exceeded after " : String).length = 26 := rfl
  have h2 : (" attempts. Please reduce batch size or wait." : String).length = 44 := rfl
  have h3 : ("Daily API quota exhausted. Please try again in 24 hours." : String).length
      = 56 := rfl
  omega

/-- C5: the retry executor's classification, attempt by attempt (attempts
zero-based, `remaining + attempt` totalling `maxRetries` at the entry point,
which starts at attempt 0 with `maxRetries` iterations remaining): a
successful operation ends the run after that try; a 404 failure is never
retried and terminates at once as the permanent `notFoundMsg` error; a 429
failure sleeps `max(server-suggested delay, initialDelay * 2 ^ attempt)` and
retries while attempts remain, and otherwise fails with
`rateLimitExceededMsg maxRetries`, a message distinct from the rate-limiter
exhaustion message; any other failure sleeps `initialDelay * 2 ^ attempt`
and retries while attempts remain, and otherwise re-raises the original
error; and no run invokes the operation more than `maxRetries` times. -/
theorem claim_C5_retry_classification :
    (∀ (α : Type) (fn : Nat → AttemptOutcome α) (op : String) (m : Nat) (il : Int)
        (a r : Nat) (le : Option JsError) (s s' : RLState) (sl : List Int) (v : α),
      waitForRateLimit s = RLResult.ok s' sl →
      fn a = AttemptOutcome.ok v →
      retryAux fn op m il a (r + 1) le s = ⟨Except.ok v, s', sl, 1⟩) ∧
    (∀ (α : Type) (fn : Nat → AttemptOutcome α) (op : String) (m : Nat) (il : Int)
        (a r : Nat) (le : Option JsError) (s s' : RLState) (sl : List Int) (e : JsError),
      waitForRateLimit s = RLResult.ok s' sl →
      fn a = AttemptOutcome.fail e →
      e.status = some 404 →
      retryAux fn op m il a (r + 1) le s
        = ⟨Except.error ⟨none, notFoundMsg e.message, none⟩, s', sl, 1⟩) ∧
    (∀ (α : Type) (fn : Nat → AttemptOutcome α) (op : String) (m : Nat) (il : Int)
        (a r : Nat) (le : Option JsError) (s s' : RLState) (sl : List Int) (e : JsError),
      waitForRateLimit s = RLResult.ok s' sl →
      fn a = AttemptOutcome.fail e →
      e.status = some 429 →
      a < m - 1 →
      retryAux fn op m il a (r + 1) le s
        = (let d := match e.retryDelayMs with
             | some sd => max sd (il * 2 ^ a)
             | none => il * 2 ^ a
           let rest := retryAux fn op m il (a + 1) r (some e) { s' with clock := s'.clock + d }
           ⟨rest.result, rest.state, sl ++ d :: rest.sleeps, rest.fnCalls + 1⟩)) ∧
    (∀ (α : Type) (fn : Nat → AttemptOutcome α) (op : String) (m : Nat) (il : Int)
        (a r : Nat) (le : Option JsError) (s s' : RLState) (sl : List Int) (e : JsError),
      waitForRateLimit s = RLResult.ok s' sl →
      fn a = AttemptOutcome.fail e →
      e.status = some 429 →
      ¬ a < m - 1 →
      retryAux fn op m il a (r + 1) le s
        = ⟨Except.error ⟨none, rateLimitExceededMsg m, none⟩, s', sl, 1⟩) ∧
    (∀ n : Nat, rateLimitExceededMsg n ≠ quotaExhaustedMsg) ∧
    (∀ (α : Type) (fn : Nat → AttemptOutcome α) (op : String) (m : Nat) (il : Int)
        (a r : Nat) (le : Option JsError) (s s' : RLState) (sl : List Int) (e : JsError),
      waitForRateLimit s = RLResult.ok s' sl →
      fn a = AttemptOutcome.fail e →
      e.status ≠ some 404 →
      e.status ≠ some 429 →
      a < m - 1 →
      retryAux fn op m il a (r + 1) le s
        = (let rest := retryAux fn op m il (a + 1) r (some e)
             { s' with clock := s'.clock + il * 2 ^ a }
           ⟨rest.result, rest.state, sl ++ (il * 2 ^ a) :: rest.sleeps, rest.fnCalls + 1⟩)) ∧
    (∀ (α : Type) (fn : Nat → AttemptOutcome α) (op : String) (m : Nat) (il : Int)
        (a r : Nat) (le : Option JsError) (s s' : RLState) (sl : List Int) (e : JsError),
      waitForRateLimit s = RLResult.ok s' sl →
      fn a = AttemptOutcome.fail e →
      e.status ≠ some 404 →
      e.status ≠ some 429 →
      ¬ a < m - 1 →
      retryAux fn op m il a (r + 1) le s = ⟨Except.error e, s', sl, 1⟩) ∧
    (∀ (α : Type) (fn : Nat → AttemptOutcome α) (op : String) (m : Nat) (il : Int)
        (s : RLState),
      (retryWithBackoff fn op m il s).fnCalls ≤ m) := by
  refine ⟨?_, ?_, ?_, ?_, rateLimitMsg_ne_quotaMsg, ?_, ?_, ?_⟩
  · intro α fn op m il a r le s s' sl v hw hf
    simp [retryAux, hw, hf]
  · intro α fn op m il a r le s s' sl e hw hf h404
    simp [retryAux, hw, hf, h404]
  · intro α fn op m il a r le s s' sl e hw hf h429 hlt
    have h404 : ¬ e.status = some 404 := by rw [h429]; decide
    simp [retryAux, hw, hf, h404, h429, hlt]
  · intro α fn op m il a r le s s' sl e hw hf h429 hnlt
    have h404 : ¬ e.status = some 404 := by rw [h429]; decide
    simp [retryAux, hw, hf, h404, h429, hnlt]
  · intro α fn op m il a r le s s' sl e hw hf h404 h429 hlt
    simp [retryAux, hw, hf, h404, h429, hlt]
  · intro α fn op m il a r le s s' sl e hw hf h404 h429 hnlt
    simp [retryAux, hw, hf, h404, h429, hnlt]
  · intro α fn op m il s
    exact retryAux_fnCalls_le fn op m il m 0 none s

/-- A model oracle that always answers 404 (not found). -/
def fail404 : Nat → AttemptOutcome Nat :=
  fun _ => AttemptOutcome.fail ⟨some 404, "model missing", none⟩

/-- A model oracle that always answers 429 (too many requests). -/
def fail429 : Nat → AttemptOutcome Nat :=
  fun _ => AttemptOutcome.fail ⟨some 429, "too many requests", none⟩

set_option maxRecDepth 4000 in
/-- Witness for C5: a concrete 404 failure terminates after exactly one try
with the permanent message, and a concrete 429 failure on the final attempt
terminates with the quota-exceeded message. -/
theorem claim_C5_retry_classification_witness :
    (retryAux fail404 "Summary generation" 3 3000 0 3 none rlFresh
      = ⟨Except.error ⟨none, notFoundMsg "model missing", none⟩,
         ⟨⟨1, 60000, 1, 86400000, 6000⟩, 6000⟩, [6000], 1⟩) ∧
    (retryAux fail429 "Summary generation" 3 3000 2 1 none rlFresh
      = ⟨Except.error ⟨none, rateLimitExceededMsg 3, none⟩,
         ⟨⟨1, 60000, 1, 86400000, 6000⟩, 6000⟩, [6000], 1⟩) :=
  ⟨claim_C5_retry_classification.2.1 Nat fail404
      "Summary generation" 3 3000 0 2 none rlFresh ⟨⟨1, 60000, 1, 86400000, 6000⟩, 6000⟩
      [6000] ⟨some 404, "model missing", none⟩ (by decide) rfl rfl,
   claim_C5_retry_classification.2.2.2.1 Nat fail429
      "Summary generation" 3 3000 2 0 none rlFresh ⟨⟨1, 60000, 1, 86400000, 6000⟩, 6000⟩
      [6000] ⟨some 429, "too many requests", none⟩ (by decide) rfl rfl (by decide)⟩

end InsightBridge
